import Mathlib

/-!
Shallow embedding of the VoiceConfirm backend's order-confirmation call
workflow (app/services/call_service.py, app/services/order_service.py,
app/api/calls/routes.py) together with the Pydantic data models
(app/models/order.py, app/models/call.py).

Modelling conventions:
* MongoDB documents become Lean structures; the two collections
  (`orders`, `call_logs`) become lists inside a `DB` structure.
  `find_one` is `List.find?` (first match in natural order) and
  `update_one` is `updateFirst` (update the first match).
* `datetime.utcnow()` is a `now : Nat` parameter; every call of
  `utcnow` within one service invocation yields the same `now`.
* ObjectId keys are `Nat`; the external collaborators (ElevenLabs audio
  synthesis, Twilio dispatch) are oracles whose results are inputs, and
  the side effects of reaching them are recorded in an action trace.
* Python floats are modelled as exact rationals `ℚ`; `round(x, 2)` is
  modelled as round-half-to-even on rationals.
-/

/-- FastAPI `HTTPException`: a status code plus a detail string. -/
structure HTTPError where
  status_code : Nat
  detail : String
deriving DecidableEq, Repr

/-- `HTTPException(404, "Order not found")` — the spec's `NotFound`. -/
def errNotFound : HTTPError := ⟨404, "Order not found"⟩

/-- `HTTPException(400, "Order already confirmed")` — the spec's `AlreadyConfirmed`. -/
def errAlreadyConfirmed : HTTPError := ⟨400, "Order already confirmed"⟩

/-- `HTTPException(400, "Maximum call attempts reached")` — the spec's `AttemptsExhausted`. -/
def errAttemptsExhausted : HTTPError := ⟨400, "Maximum call attempts reached"⟩

/-- `HTTPException(500, "Failed to generate audio")` — the spec's `AudioGenerationFailed`. -/
def errAudioGenerationFailed : HTTPError := ⟨500, "Failed to generate audio"⟩

/-- app/models/order.py `OrderCustomer` (address omitted: never read by the services). -/
structure OrderCustomer where
  name : String
  phone : String
  email : Option String := none
deriving DecidableEq, Repr

/-- app/models/order.py `OrderItem` (sku/image_url omitted: never read by the services). -/
structure OrderItem where
  name : String
  quantity : Nat
  price : ℚ
deriving DecidableEq, Repr

/-- app/models/order.py `OrderDetails` (addresses omitted: never read by the services). -/
structure OrderDetails where
  items : List OrderItem
  total : ℚ
  currency : String := "USD"
deriving DecidableEq, Repr

/-- app/models/order.py `OrderInDB`: an order document as stored in Mongo. -/
structure OrderInDB where
  order_id : String
  user_id : Nat
  customer : OrderCustomer
  order_details : OrderDetails
  confirmation_status : String := "pending"
  call_attempts : Nat := 0
  max_call_attempts : Nat := 3
  priority : String := "normal"
  notes : Option String := none
  last_call_date : Option Nat := none
  confirmed_at : Option Nat := none
  created_at : Nat := 0
  updated_at : Nat := 0
deriving DecidableEq, Repr

/-- app/models/order.py `OrderUpdate`: `none` models an unset field
(`.dict(exclude_unset=True)` drops it). -/
structure OrderUpdate where
  confirmation_status : Option String := none
  call_attempts : Option Nat := none
  priority : Option String := none
  notes : Option String := none
  last_call_date : Option Nat := none
deriving DecidableEq, Repr

/-- app/models/user.py `UserInDB`, restricted to the fields the call and
order services read (`id` and `role`). -/
structure UserInDB where
  id : Nat
  role : String := "user"
deriving DecidableEq, Repr

/-- A Twilio status webhook payload: the form fields the code reads
(`CallSid`, `CallStatus`, `CallDuration`), each possibly absent. -/
structure WebhookEvent where
  callSid : Option String := none
  callStatus : Option String := none
  callDuration : Option Int := none
deriving DecidableEq, Repr

/-- app/models/call.py `CallInDB`: a call_logs document as stored in Mongo.
`metadata` holds the raw webhook payload when reconciliation stores one. -/
structure CallInDB where
  id : Nat
  call_id : String
  order_id : Nat
  user_id : Nat
  status : String := "initiated"
  call_type : String := "confirmation"
  language : String := "en"
  voice_id : Option String := none
  duration : Option Int := none
  transcript : Option String := none
  audio_url : Option String := none
  outcome : Option String := none
  customer_response : Option String := none
  ai_confidence : Option ℚ := none
  retry_count : Nat := 0
  scheduled_at : Option Nat := none
  metadata : Option WebhookEvent := none
  created_at : Nat := 0
  updated_at : Nat := 0
  started_at : Option Nat := none
  ended_at : Option Nat := none
deriving DecidableEq, Repr

/-- app/models/call.py `CallUpdate`. These are exactly the declared fields;
Pydantic silently ignores any other keyword argument passed to the
constructor (extra = ignore), so e.g. `started_at=...` and `metadata=...`
at call_service.py:140-145 are dropped. `none` models an unset field. -/
structure CallUpdate where
  status : Option String := none
  duration : Option Int := none
  transcript : Option String := none
  audio_url : Option String := none
  outcome : Option String := none
  customer_response : Option String := none
  ai_confidence : Option ℚ := none
  retry_count : Option Nat := none
deriving DecidableEq, Repr

/-- app/models/call.py `CallStats`. Dictionaries become insertion-ordered
association lists, as in Python. -/
structure CallStats where
  total_calls : Nat
  successful_calls : Nat
  failed_calls : Nat
  average_duration : ℚ
  success_rate : ℚ
  total_duration : Int
  calls_by_outcome : List (String × Nat)
  calls_by_language : List (String × Nat)
deriving DecidableEq, Repr

/-- Result dict of `twilio_service.make_voice_call`: the orchestrator only
reads `success`; the provider call sid is kept for completeness. -/
structure DispatchResult where
  success : Bool
  call_sid : Option String := none
deriving DecidableEq, Repr

/-- Oracle inputs consumed by one `initiate_order_confirmation_call`
invocation: the Mongo-assigned id and uuid4 for the new record, the
ElevenLabs audio result (None on failure; Python also treats empty bytes
as falsy) and the Twilio dispatch result. -/
structure InitOracle where
  newId : Nat
  newCallId : String
  audio : Option (List Nat)
  dispatch : DispatchResult
deriving DecidableEq, Repr

/-- Externally observable collaborator actions, recorded in order. -/
inductive ExtAction where
  | genScript
  | genAudio
  | dispatchCall (phone : String)
deriving DecidableEq, Repr

/-- The two Mongo collections the call workflow touches. Orders are keyed
pairs (ObjectId, document). -/
structure DB where
  orders : List (Nat × OrderInDB)
  call_logs : List CallInDB
deriving DecidableEq, Repr

/-- Mongo `update_one`: rewrite the first element satisfying `p`. -/
def updateFirst (p : α → Bool) (f : α → α) : List α → List α
  | [] => []
  | a :: l => if p a then f a :: l else a :: updateFirst p f l

/-- `db.orders.find_one({"_id": ObjectId(order_id), "user_id": user.id})`
at call_service.py:57-60. -/
def findOrder (db : DB) (orderId userId : Nat) : Option OrderInDB :=
  (db.orders.find? fun p => p.1 == orderId && p.2.user_id == userId).map Prod.snd

/-- call_service.py:83-85: `if not voice_id: voice_id = "21m00Tcm4TlvDq8ikWAM"`
(Python truthiness: both None and the empty string fall back). -/
def resolveVoice (voiceId : Option String) : String :=
  match voiceId with
  | none => "21m00Tcm4TlvDq8ikWAM"
  | some s => if s = "" then "21m00Tcm4TlvDq8ikWAM" else s

/-- Items summary of elevenlabs_service.generate_confirmation_script:
first 3 items as "qty name", with an "and N more items" suffix. -/
def confirmationItemsText (items : List OrderItem) : String :=
  if items.isEmpty then ""
  else
    let listed := (items.take 3).map fun it => toString it.quantity ++ " " ++ it.name
    let base := "including " ++ String.intercalate ", " listed
    if 3 < items.length then
      base ++ " and " ++ toString (items.length - 3) ++ " more items"
    else base

/-- elevenlabs_service.generate_confirmation_script: pure template
formatting (the `language` argument is accepted and unused, as in the
source; numeric rendering of the total is abstracted by `toString`). -/
def generate_confirmation_script (customerName orderIdExt : String) (orderTotal : ℚ)
    (currency : String) (items : List OrderItem) (language : String) : String :=
  let _ := language
  "Hello " ++ customerName ++
    ", this is a call from VoiceConfirm regarding your recent order #" ++ orderIdExt ++
    ". \n\nI\x27m calling to confirm your order totaling " ++ toString orderTotal ++ " " ++
    currency ++ " " ++ confirmationItemsText items ++
    ". \n\nCould you please confirm that you placed this order and that all the details are correct? " ++
    "\n\nIf you confirm this order, please say \x27yes\x27 or \x27confirm\x27. " ++
    "If there are any issues or you need to cancel, please say \x27no\x27 or \x27cancel\x27." ++
    "\n\nThank you for your time."

/-- Python truthiness test `if not audio_data` on an Optional[bytes]:
true for None and for empty bytes. -/
def audioFalsy : Option (List Nat) → Bool
  | none => true
  | some bs => bs.isEmpty

/-- The document inserted by `create_call` for a confirmation call
(call_service.py:87-98 together with create_call and the CallBase
defaults of app/models/call.py). -/
def newCallRecord (orc : InitOracle) (orderId userId : Nat) (language vid : String)
    (now : Nat) : CallInDB :=
  { id := orc.newId
    call_id := orc.newCallId
    order_id := orderId
    user_id := userId
    status := "initiated"
    language := language
    voice_id := some vid
    scheduled_at := some now
    created_at := now
    updated_at := now }

/-- The `$set` document built by `update_call` (call_service.py:170-186):
every set field of the CallUpdate, plus `updated_at`, plus `ended_at`
when the new status is "completed". -/
def applyCallUpdate (u : CallUpdate) (now : Nat) (c : CallInDB) : CallInDB :=
  let c := match u.status with | some s => { c with status := s } | none => c
  let c := match u.duration with | some d => { c with duration := some d } | none => c
  let c := match u.transcript with | some t => { c with transcript := some t } | none => c
  let c := match u.audio_url with | some a => { c with audio_url := some a } | none => c
  let c := match u.outcome with | some o => { c with outcome := some o } | none => c
  let c := match u.customer_response with | some r => { c with customer_response := some r } | none => c
  let c := match u.ai_confidence with | some q => { c with ai_confidence := some q } | none => c
  let c := match u.retry_count with | some n => { c with retry_count := n } | none => c
  let c := { c with updated_at := now }
  match u.status with
  | some s => if s = "completed" then { c with ended_at := some now } else c
  | none => c

/-- call_service.update_call: update the record by `_id`; Mongo reports
`modified_count = 0` (and the function returns None) when no document
matched or when the written values equal the stored ones. -/
def update_call (cid : Nat) (u : CallUpdate) (db : DB) (now : Nat) :
    Option CallInDB × DB :=
  match db.call_logs.find? (fun c => c.id == cid) with
  | none => (none, db)
  | some c =>
    let c2 := applyCallUpdate u now c
    if c2 = c then (none, db)
    else
      (some c2, { db with call_logs := updateFirst (fun r => r.id == cid) (fun _ => c2) db.call_logs })

/-- call_service.py:149-156: `$inc call_attempts, $set last_call_date`
on `{"_id": ObjectId(order_id)}`. -/
def incrementOrderAttempts (db : DB) (orderId : Nat) (now : Nat) : DB :=
  { db with
    orders := updateFirst (fun p => p.1 == orderId)
      (fun p => (p.1, { p.2 with call_attempts := p.2.call_attempts + 1, last_call_date := some now }))
      db.orders }

/-- Outcome of one `initiate_order_confirmation_call` invocation: the
returned value or raised HTTPException, the database afterwards, and the
trace of collaborator actions performed. -/
structure InitResult where
  result : Except HTTPError (Option CallInDB)
  db : DB
  trace : List ExtAction
deriving Repr

/-- call_service.initiate_order_confirmation_call (call_service.py:46-168).
The CallUpdate at lines 140-145 carries only `status` and `transcript`:
the `started_at=...` and `metadata=call_result` keyword arguments are
silently discarded because the CallUpdate model declares neither field. -/
def initiate_order_confirmation_call (orderId userId : Nat) (language : String)
    (voiceId : Option String) (orc : InitOracle) (db : DB) (now : Nat) : InitResult :=
  match findOrder db orderId userId with
  | none => ⟨.error errNotFound, db, []⟩
  | some ord =>
    if ord.confirmation_status = "confirmed" then ⟨.error errAlreadyConfirmed, db, []⟩
    else if ord.max_call_attempts ≤ ord.call_attempts then ⟨.error errAttemptsExhausted, db, []⟩
    else
      let vid := resolveVoice voiceId
      let rec0 := newCallRecord orc orderId userId language vid now
      let db1 : DB := { db with call_logs := db.call_logs ++ [rec0] }
      let script := generate_confirmation_script ord.customer.name ord.order_id
        ord.order_details.total ord.order_details.currency ord.order_details.items language
      if audioFalsy orc.audio then
        let r := update_call rec0.id { status := some "failed", outcome := some "audio_generation_failed" } db1 now
        ⟨.error errAudioGenerationFailed, r.2, [.genScript, .genAudio]⟩
      else
        let st := if orc.dispatch.success then "in_progress" else "failed"
        let r := update_call rec0.id { status := some st, transcript := some script } db1 now
        let db3 := incrementOrderAttempts r.2 orderId now
        ⟨.ok r.1, db3, [.genScript, .genAudio, .dispatchCall ord.customer.phone]⟩

/-- call_service.py:366-375: fixed Twilio status table with default
"failed" (`status_mapping.get(status, "failed")`). -/
def twStatusMap (st : String) : String :=
  if st = "completed" then "completed"
  else if st = "busy" then "failed"
  else if st = "no-answer" then "failed"
  else if st = "failed" then "failed"
  else if st = "canceled" then "cancelled"
  else "failed"

/-- call_service.py:377-382: outcome defaults to "no_answer"; completed
calls longer than 10 seconds count as "completed"; a failed mapped
status yields "failed". -/
def deriveOutcome (mapped : String) (dur : Int) : String :=
  if mapped = "completed" && 10 < dur then "completed"
  else if mapped = "failed" then "failed"
  else "no_answer"

/-- The `$set` document of call_service.py:384-399 applied to the matched
call record: status, duration, outcome, updated_at, metadata, and
ended_at when the mapped status is "completed". -/
def reconcileRecord (e : WebhookEvent) (now : Nat) (c : CallInDB) : CallInDB :=
  let st := e.callStatus.getD "unknown"
  let dur : Int := e.callDuration.getD 0
  let mapped := twStatusMap st
  let c2 := { c with
    status := mapped
    duration := some dur
    outcome := some (deriveOutcome mapped dur)
    updated_at := now
    metadata := some e }
  if mapped = "completed" then { c2 with ended_at := some now } else c2

/-- call_service.py:401-406: the order update applied when the derived
outcome is "completed": only confirmation_status and confirmed_at. -/
def confirmOrder (now : Nat) (o : OrderInDB) : OrderInDB :=
  { o with confirmation_status := "confirmed", confirmed_at := some now }

/-- The database effect of a matched webhook (call_service.py:384-406):
rewrite the first call record with this call_id, and, when the derived
outcome is "completed", confirm the order referenced by the matched
record (`call["order_id"]` = `oid`). -/
def applyWebhook (callId : String) (e : WebhookEvent) (now : Nat) (oid : Nat) (db : DB) : DB :=
  let outcome := deriveOutcome (twStatusMap (e.callStatus.getD "unknown")) (e.callDuration.getD 0)
  { db with
    call_logs := updateFirst (fun r => r.call_id == callId) (reconcileRecord e now) db.call_logs
    orders :=
      if outcome = "completed" then
        updateFirst (fun p => p.1 == oid) (fun p => (p.1, confirmOrder now p.2)) db.orders
      else db.orders }

/-- call_service.process_call_webhook (call_service.py:353-413): look up
the call record by call_id; absent means a False no-op, present means
apply the reconciliation and answer True. -/
def process_call_webhook (callId : String) (e : WebhookEvent) (db : DB) (now : Nat) :
    Bool × DB :=
  match db.call_logs.find? (fun c => c.call_id == callId) with
  | none => (false, db)
  | some c => (true, applyWebhook callId e now c.order_id db)

/-- Response of the webhook endpoint: the success JSON body or a raised
HTTPException. -/
inductive WebhookResponse where
  | success
  | httpError (code : Nat) (detail : String)
deriving DecidableEq, Repr

/-- app/api/calls/routes.py twilio_webhook (routes.py:92-125): a missing
(or empty, by Python truthiness) CallSid is a 400; a False result from
process_call_webhook is surfaced as a 400; True yields the success body. -/
def twilio_webhook (e : WebhookEvent) (db : DB) (now : Nat) : WebhookResponse × DB :=
  match e.callSid with
  | none => (.httpError 400 "Missing CallSid in webhook data", db)
  | some sid =>
    if sid = "" then (.httpError 400 "Missing CallSid in webhook data", db)
    else
      let r := process_call_webhook sid e db now
      if r.1 then (.success, r.2) else (.httpError 400 "Failed to process webhook", r.2)

/-- The `$set` document built by order_service.update_order
(order_service.py:129-136): every set field of the OrderUpdate, plus
`updated_at`, plus `confirmed_at` when the new confirmation_status is
"confirmed". -/
def applyOrderUpdate (u : OrderUpdate) (now : Nat) (o : OrderInDB) : OrderInDB :=
  let o := match u.confirmation_status with | some s => { o with confirmation_status := s } | none => o
  let o := match u.call_attempts with | some n => { o with call_attempts := n } | none => o
  let o := match u.priority with | some s => { o with priority := s } | none => o
  let o := match u.notes with | some s => { o with notes := some s } | none => o
  let o := match u.last_call_date with | some t => { o with last_call_date := some t } | none => o
  let o := { o with updated_at := now }
  match u.confirmation_status with
  | some s => if s = "confirmed" then { o with confirmed_at := some now } else o
  | none => o

/-- Visibility filter used by update/get/stats queries: admins see every
document, other users only their own. -/
def orderQuery (user : UserInDB) (orderId : Nat) (p : Nat × OrderInDB) : Bool :=
  p.1 == orderId && (user.role == "admin" || p.2.user_id == user.id)

/-- order_service.update_order (order_service.py:115-149): check the order
exists under the requester-scoped query, apply the `$set`, re-read. -/
def update_order (orderId : Nat) (u : OrderUpdate) (user : UserInDB) (db : DB) (now : Nat) :
    Option OrderInDB × DB :=
  match db.orders.find? (orderQuery user orderId) with
  | none => (none, db)
  | some _ =>
    let orders := updateFirst (orderQuery user orderId)
      (fun p => (p.1, applyOrderUpdate u now p.2)) db.orders
    let db2 : DB := { db with orders := orders }
    ((db2.orders.find? (orderQuery user orderId)).map Prod.snd, db2)

/-- Python banker's rounding of a rational to an integer
(round-half-to-even), modelling `round`. -/
def pyRoundInt (q : ℚ) : ℤ :=
  let f := ⌊q⌋
  let frac := q - f
  if frac < 1/2 then f
  else if 1/2 < frac then f + 1
  else if f % 2 = 0 then f else f + 1

/-- `round(x, 2)` on exact rationals. -/
def round2 (q : ℚ) : ℚ := (pyRoundInt (q * 100) : ℚ) / 100

/-- The `$match` stage of get_call_stats: admins aggregate over every
call, other users over their own calls. -/
def visibleCalls (user : UserInDB) (db : DB) : List CallInDB :=
  if user.role = "admin" then db.call_logs
  else db.call_logs.filter fun c => c.user_id == user.id

/-- Insertion-ordered counter bump: `d[k] = d.get(k, 0) + 1`. -/
def bumpCount (k : String) (l : List (String × Nat)) : List (String × Nat) :=
  match l.find? (fun p => p.1 == k) with
  | some _ => l.map fun p => if p.1 == k then (p.1, p.2 + 1) else p
  | none => l ++ [(k, 1)]

/-- call_service.py:304-309: count outcomes, skipping falsy values
(None or the empty string). -/
def countOutcomes (calls : List CallInDB) : List (String × Nat) :=
  calls.foldl
    (fun acc c =>
      match c.outcome with
      | some o => if o = "" then acc else bumpCount o acc
      | none => acc)
    []

/-- call_service.py:311-316: count languages, skipping falsy values. -/
def countLanguages (calls : List CallInDB) : List (String × Nat) :=
  calls.foldl (fun acc c => if c.language = "" then acc else bumpCount c.language acc) []

/-- The aggregation body of call_service.get_call_stats
(call_service.py:274-338) over the matched documents: Mongo `$sum` of
`$duration` ignores null durations; an empty match yields the zero
stats; success rate is a percentage and average duration divides the
summed duration by the total number of calls. -/
def callStatsOf (calls : List CallInDB) : CallStats :=
  if calls.isEmpty then ⟨0, 0, 0, 0, 0, 0, [], []⟩
  else
    let total := calls.length
    let succ := (calls.filter fun c => c.status == "completed").length
    let failedCount := (calls.filter fun c => c.status == "failed").length
    let totalDur : Int := (calls.filterMap fun c => c.duration).sum
    let successRate : ℚ := if 0 < total then (succ : ℚ) / (total : ℚ) * 100 else 0
    let avgDur : ℚ := if 0 < total then (totalDur : ℚ) / (total : ℚ) else 0
    { total_calls := total
      successful_calls := succ
      failed_calls := failedCount
      average_duration := round2 avgDur
      success_rate := round2 successRate
      total_duration := totalDur
      calls_by_outcome := countOutcomes calls
      calls_by_language := countLanguages calls }

/-- call_service.get_call_stats: a pure read of the requester-visible
calls; the database is returned unchanged (no write side effects). -/
def get_call_stats (user : UserInDB) (db : DB) : CallStats × DB :=
  (callStatsOf (visibleCalls user db), db)

/-- Modelled from the spec: "average duration over calls with non-null
duration" (spec §4.3) — the mean of the durations that are present, for
refinement comparison with `get_call_stats`. -/
def averageDurationSpec (calls : List CallInDB) : ℚ :=
  let ds : List Int := calls.filterMap fun c => c.duration
  if ds.isEmpty then 0 else ((ds.sum : ℤ) : ℚ) / (ds.length : ℚ)

/-- Modelled from the spec: "success rate = completed/total" (spec §4.3)
— the plain ratio, for refinement comparison with `get_call_stats`. -/
def successRateSpec (calls : List CallInDB) : ℚ :=
  if calls.isEmpty then 0
  else ((calls.filter fun c => c.status == "completed").length : ℚ) / (calls.length : ℚ)

/-! Concrete sample data used to instantiate the theorems below. -/

/-- A sample customer. -/
def exCustomer : OrderCustomer := { name := "Alice", phone := "+15550100" }

/-- A sample line-item list. -/
def exItems : List OrderItem := [{ name := "Widget", quantity := 2, price := 5 }]

/-- Sample order details. -/
def exDetails : OrderDetails := { items := exItems, total := 10 }

/-- A pending order owned by user 7. -/
def exOrder : OrderInDB :=
  { order_id := "ORD-1", user_id := 7, customer := exCustomer, order_details := exDetails }

/-- The same order already confirmed, with its attempt budget also
exhausted (to exercise the precedence of AlreadyConfirmed). -/
def exOrderConfirmed : OrderInDB :=
  { exOrder with confirmation_status := "confirmed", call_attempts := 3 }

/-- The same order with its attempt budget exhausted but not confirmed. -/
def exOrderExhausted : OrderInDB := { exOrder with call_attempts := 3 }

/-- The same order cancelled. -/
def exOrderCancelled : OrderInDB := { exOrder with confirmation_status := "cancelled" }

/-- The requester owning the sample order. -/
def exUser : UserInDB := { id := 7 }

/-- Database holding only the pending sample order. -/
def exDb : DB := { orders := [(1, exOrder)], call_logs := [] }

/-- Database holding the confirmed-and-exhausted sample order. -/
def exDbConfirmed : DB := { orders := [(1, exOrderConfirmed)], call_logs := [] }

/-- Database holding the attempts-exhausted sample order. -/
def exDbExhausted : DB := { orders := [(1, exOrderExhausted)], call_logs := [] }

/-- Database holding the cancelled sample order. -/
def exDbCancelled : DB := { orders := [(1, exOrderCancelled)], call_logs := [] }

/-- Oracle for a run whose synthesis and dispatch both succeed. -/
def exOracle : InitOracle :=
  { newId := 42, newCallId := "uuid-0001", audio := some [1, 2, 3],
    dispatch := { success := true, call_sid := some "CAuuid-0001" } }

/-- Oracle for a run whose audio synthesis fails (None). -/
def exOracleNoAudio : InitOracle := { exOracle with audio := none }

/-- A dispatched call record awaiting reconciliation. -/
def exCall : CallInDB :=
  { id := 42, call_id := "CA123", order_id := 1, user_id := 7, status := "in_progress" }

/-- Database with the pending sample order and the dispatched call. -/
def exDbCall : DB := { orders := [(1, exOrder)], call_logs := [exCall] }

/-- A completed delivery event for the known call, 15 seconds long. -/
def exEventCompleted : WebhookEvent :=
  { callSid := some "CA123", callStatus := some "completed", callDuration := some 15 }

/-- A completed delivery event for an unknown call identifier. -/
def exEventUnknown : WebhookEvent :=
  { callSid := some "CA999", callStatus := some "completed", callDuration := some 15 }

/-- Two calls for the statistics example: one completed with a 10-second
duration, one failed with no duration recorded. -/
def exStatsCalls : List CallInDB :=
  [{ id := 1, call_id := "a", order_id := 1, user_id := 7, status := "completed", duration := some 10 },
   { id := 2, call_id := "b", order_id := 1, user_id := 7, status := "failed" }]

/-- Database for the statistics example. -/
def exDbStats : DB := { orders := [], call_logs := exStatsCalls }

/-- A freshly initiated call record (ended_at unset). -/
def exCallInitiated : CallInDB :=
  { id := 5, call_id := "CA5", order_id := 1, user_id := 7 }

/-- Database for the ended_at example. -/
def exDbInitiated : DB := { orders := [], call_logs := [exCallInitiated] }

/-! List-level facts about `find?` and `updateFirst`. -/

theorem find?_append_of_none {α : Type} (p : α → Bool) (l₁ l₂ : List α)
    (h : ∀ x ∈ l₁, p x = false) : (l₁ ++ l₂).find? p = l₂.find? p := by
  induction l₁ with
  | nil => rfl
  | cons a l ih =>
    have ha := h a (List.mem_cons_self a l)
    simp only [List.cons_append, List.find?, ha]
    exact ih fun x hx => h x (List.mem_cons_of_mem a hx)

theorem updateFirst_append_of_none {α : Type} (p : α → Bool) (f : α → α) (l₁ l₂ : List α)
    (h : ∀ x ∈ l₁, p x = false) :
    updateFirst p f (l₁ ++ l₂) = l₁ ++ updateFirst p f l₂ := by
  induction l₁ with
  | nil => rfl
  | cons a l ih =>
    have ha := h a (List.mem_cons_self a l)
    simp only [List.cons_append, updateFirst, ha, Bool.false_eq_true, if_false, List.cons.injEq,
      true_and]
    exact ih fun x hx => h x (List.mem_cons_of_mem a hx)

theorem find?_updateFirst {α : Type} (p : α → Bool) (f : α → α) (l : List α)
    (hpf : ∀ a, p (f a) = p a) :
    (updateFirst p f l).find? p = (l.find? p).map f := by
  induction l with
  | nil => rfl
  | cons a l ih =>
    cases ha : p a with
    | true => simp [updateFirst, ha, List.find?, hpf]
    | false => simp [updateFirst, ha, List.find?, ih]

theorem updateFirst_updateFirst {α : Type} (p : α → Bool) (f : α → α) (l : List α)
    (hpf : ∀ a, p (f a) = p a) (hff : ∀ a, f (f a) = f a) :
    updateFirst p f (updateFirst p f l) = updateFirst p f l := by
  induction l with
  | nil => rfl
  | cons a l ih =>
    cases ha : p a with
    | true => simp [updateFirst, ha, hpf, hff]
    | false => simp [updateFirst, ha, ih]

/-! Record-level facts about the reconciliation and update helpers. -/

theorem reconcileRecord_call_id (e : WebhookEvent) (now : Nat) (c : CallInDB) :
    (reconcileRecord e now c).call_id = c.call_id := by
  by_cases h : twStatusMap (e.callStatus.getD "unknown") = "completed" <;>
    simp [reconcileRecord, h]

theorem reconcileRecord_order_id (e : WebhookEvent) (now : Nat) (c : CallInDB) :
    (reconcileRecord e now c).order_id = c.order_id := by
  by_cases h : twStatusMap (e.callStatus.getD "unknown") = "completed" <;>
    simp [reconcileRecord, h]

theorem reconcileRecord_status (e : WebhookEvent) (now : Nat) (c : CallInDB) :
    (reconcileRecord e now c).status = twStatusMap (e.callStatus.getD "unknown") := by
  by_cases h : twStatusMap (e.callStatus.getD "unknown") = "completed" <;>
    simp [reconcileRecord, h]

theorem reconcileRecord_outcome (e : WebhookEvent) (now : Nat) (c : CallInDB) :
    (reconcileRecord e now c).outcome =
      some (deriveOutcome (twStatusMap (e.callStatus.getD "unknown")) (e.callDuration.getD 0)) := by
  by_cases h : twStatusMap (e.callStatus.getD "unknown") = "completed" <;>
    simp [reconcileRecord, h]

theorem reconcileRecord_ended_at (e : WebhookEvent) (now : Nat) (c : CallInDB) :
    (reconcileRecord e now c).ended_at =
      if twStatusMap (e.callStatus.getD "unknown") = "completed" then some now
      else c.ended_at := by
  by_cases h : twStatusMap (e.callStatus.getD "unknown") = "completed" <;>
    simp [reconcileRecord, h]

theorem reconcileRecord_idem (e : WebhookEvent) (now : Nat) (c : CallInDB) :
    reconcileRecord e now (reconcileRecord e now c) = reconcileRecord e now c := by
  unfold reconcileRecord
  by_cases h : twStatusMap (e.callStatus.getD "unknown") = "completed" <;> simp [h]

theorem confirmOrder_idem (now : Nat) (o : OrderInDB) :
    confirmOrder now (confirmOrder now o) = confirmOrder now o := rfl

theorem twStatusMap_ne_completed (st : String) (h : st ≠ "completed") :
    twStatusMap st ≠ "completed" := by
  unfold twStatusMap
  rw [if_neg h]
  split_ifs <;> simp

theorem twStatusMap_eq_completed_iff (st : String) :
    twStatusMap st = "completed" ↔ st = "completed" := by
  constructor
  · intro h
    by_contra hne
    exact twStatusMap_ne_completed st hne h
  · intro h
    simp [twStatusMap, h]

theorem twStatusMap_eq_cancelled_iff (st : String) :
    twStatusMap st = "cancelled" ↔ st = "canceled" := by
  unfold twStatusMap
  split_ifs with h1 h2 h3 h4 h5 <;> simp_all

theorem twStatusMap_default (st : String) (h1 : st ≠ "completed") (h2 : st ≠ "canceled") :
    twStatusMap st = "failed" := by
  unfold twStatusMap
  split_ifs <;> simp_all

theorem deriveOutcome_eq_completed_iff (mapped : String) (dur : Int) :
    deriveOutcome mapped dur = "completed" ↔ (mapped = "completed" ∧ 10 < dur) := by
  unfold deriveOutcome
  split_ifs with h1 h2 <;> simp_all

theorem deriveOutcome_completed_short (dur : Int) (h : dur ≤ 10) :
    deriveOutcome "completed" dur = "no_answer" := by
  unfold deriveOutcome
  simp [not_lt.mpr h]

theorem deriveOutcome_of_failed (dur : Int) : deriveOutcome "failed" dur = "failed" := by
  simp [deriveOutcome]

theorem applyCallUpdate_status_ended_at (u : CallUpdate) (now : Nat) (c : CallInDB) (s : String)
    (hs : u.status = some s) :
    (applyCallUpdate u now c).status = s
    ∧ (applyCallUpdate u now c).ended_at = (if s = "completed" then some now else c.ended_at) := by
  rcases u with ⟨us, ud, ut, ua, uo, uc, uai, ur⟩
  obtain rfl : us = some s := hs
  cases ud <;> cases ut <;> cases ua <;> cases uo <;> cases uc <;> cases uai <;> cases ur <;>
    (constructor <;> simp [applyCallUpdate] <;> split_ifs <;> rfl)

theorem applyOrderUpdate_user_id (u : OrderUpdate) (now : Nat) (o : OrderInDB) :
    (applyOrderUpdate u now o).user_id = o.user_id := by
  rcases u with ⟨uc, ua, up, un, ul⟩
  cases uc <;> cases ua <;> cases up <;> cases un <;> cases ul <;>
    (simp [applyOrderUpdate] <;> split_ifs <;> rfl)

theorem applyOrderUpdate_confirmed (u : OrderUpdate) (now : Nat) (o : OrderInDB)
    (hc : u.confirmation_status = some "confirmed") :
    (applyOrderUpdate u now o).confirmation_status = "confirmed"
    ∧ (applyOrderUpdate u now o).confirmed_at = some now := by
  rcases u with ⟨uc, ua, up, un, ul⟩
  obtain rfl : uc = some "confirmed" := hc
  cases ua <;> cases up <;> cases un <;> cases ul <;> simp [applyOrderUpdate]

theorem update_call_appended (u : CallUpdate) (db : DB) (now : Nat) (r : CallInDB)
    (hfresh : ∀ c ∈ db.call_logs, (c.id == r.id) = false)
    (hne : applyCallUpdate u now r ≠ r) :
    update_call r.id u { db with call_logs := db.call_logs ++ [r] } now =
      (some (applyCallUpdate u now r),
       { db with call_logs := db.call_logs ++ [applyCallUpdate u now r] }) := by
  unfold update_call
  have h1 : (db.call_logs ++ [r]).find? (fun c => c.id == r.id) = some r := by
    rw [find?_append_of_none _ _ _ hfresh]
    simp [List.find?]
  have h2 : updateFirst (fun c => c.id == r.id) (fun _ => applyCallUpdate u now r)
      (db.call_logs ++ [r]) = db.call_logs ++ [applyCallUpdate u now r] := by
    rw [updateFirst_append_of_none _ _ _ _ hfresh]
    simp [updateFirst]
  simp [h1, h2, hne]

theorem applyWebhook_call_logs (callId : String) (e : WebhookEvent) (now : Nat) (oid : Nat)
    (db : DB) :
    (applyWebhook callId e now oid db).call_logs =
      updateFirst (fun r => r.call_id == callId) (reconcileRecord e now) db.call_logs := rfl

theorem applyWebhook_orders (callId : String) (e : WebhookEvent) (now : Nat) (oid : Nat)
    (db : DB) :
    (applyWebhook callId e now oid db).orders =
      (if deriveOutcome (twStatusMap (e.callStatus.getD "unknown")) (e.callDuration.getD 0)
            = "completed"
       then updateFirst (fun p => p.1 == oid) (fun p => (p.1, confirmOrder now p.2)) db.orders
       else db.orders) := rfl

theorem applyWebhook_idem (callId : String) (e : WebhookEvent) (now : Nat) (oid : Nat)
    (db : DB) :
    applyWebhook callId e now oid (applyWebhook callId e now oid db)
      = applyWebhook callId e now oid db := by
  have hrc : ∀ a : CallInDB, ((reconcileRecord e now a).call_id == callId) = (a.call_id == callId) :=
    fun a => by rw [reconcileRecord_call_id]
  have hlogs := updateFirst_updateFirst (fun r => r.call_id == callId) (reconcileRecord e now)
    db.call_logs hrc (reconcileRecord_idem e now)
  have hords := updateFirst_updateFirst (fun p : Nat × OrderInDB => p.1 == oid)
    (fun p => (p.1, confirmOrder now p.2)) db.orders (fun p => rfl)
    (fun p => by simp [confirmOrder_idem])
  by_cases h : deriveOutcome (twStatusMap (e.callStatus.getD "unknown")) (e.callDuration.getD 0)
      = "completed" <;>
    simp [applyWebhook, h, hlogs, hords]

/-! Claim theorems. -/

/-- C1: the eligibility preconditions of InitiateConfirmationCall are
checked in the stated order with the first failing condition determining
the error: a missing or foreign order yields NotFound; otherwise a
confirmed order yields AlreadyConfirmed (so AlreadyConfirmed wins even
when the attempt budget is also exhausted); otherwise an exhausted
attempt budget yields AttemptsExhausted; and in every failure case the
database is unchanged (no CallRecord is created) and no collaborator
action is performed (no call is placed). -/
theorem c1_initiate_eligibility_order (orderId userId : Nat) (language : String)
    (voiceId : Option String) (orc : InitOracle) (db : DB) (now : Nat) :
    (findOrder db orderId userId = none →
      initiate_order_confirmation_call orderId userId language voiceId orc db now
        = ⟨.error errNotFound, db, []⟩)
    ∧ (∀ ord, findOrder db orderId userId = some ord →
        ord.confirmation_status = "confirmed" →
        initiate_order_confirmation_call orderId userId language voiceId orc db now
          = ⟨.error errAlreadyConfirmed, db, []⟩)
    ∧ (∀ ord, findOrder db orderId userId = some ord →
        ord.confirmation_status ≠ "confirmed" →
        ord.max_call_attempts ≤ ord.call_attempts →
        initiate_order_confirmation_call orderId userId language voiceId orc db now
          = ⟨.error errAttemptsExhausted, db, []⟩) := by
  refine ⟨fun h => ?_, fun ord h hc => ?_, fun ord h hc hm => ?_⟩
  · unfold initiate_order_confirmation_call
    simp only [h]
  · unfold initiate_order_confirmation_call
    simp only [h]
    rw [if_pos hc]
  · unfold initiate_order_confirmation_call
    simp only [h]
    rw [if_neg hc, if_pos hm]

/-- Concrete instantiation of c1_initiate_eligibility_order: a missing
order id, the confirmed-and-exhausted order, and the merely exhausted
order each produce the specified error with no state change. -/
theorem c1_initiate_eligibility_order_witness :
    initiate_order_confirmation_call 2 7 "en" none exOracle exDb 1000
      = ⟨.error errNotFound, exDb, []⟩
    ∧ initiate_order_confirmation_call 1 7 "en" none exOracle exDbConfirmed 1000
      = ⟨.error errAlreadyConfirmed, exDbConfirmed, []⟩
    ∧ initiate_order_confirmation_call 1 7 "en" none exOracle exDbExhausted 1000
      = ⟨.error errAttemptsExhausted, exDbExhausted, []⟩ :=
  ⟨(c1_initiate_eligibility_order 2 7 "en" none exOracle exDb 1000).1 (by decide),
   (c1_initiate_eligibility_order 1 7 "en" none exOracle exDbConfirmed 1000).2.1
     exOrderConfirmed (by decide) (by decide),
   (c1_initiate_eligibility_order 1 7 "en" none exOracle exDbExhausted 1000).2.2
     exOrderExhausted (by decide) (by decide) (by decide)⟩

/-- C2: on an eligible order whose audio synthesis fails, the freshly
created CallRecord is persisted with status "failed" and outcome
"audio_generation_failed", the AudioGenerationFailed error propagates,
the orders collection (hence call_attempts and last_call_date) is
untouched, and no dispatch action is performed. -/
theorem c2_audio_failure_frame (orderId userId : Nat) (language : String)
    (voiceId : Option String) (orc : InitOracle) (db : DB) (now : Nat) (ord : OrderInDB)
    (hord : findOrder db orderId userId = some ord)
    (hnc : ord.confirmation_status ≠ "confirmed")
    (hatt : ord.call_attempts < ord.max_call_attempts)
    (haud : audioFalsy orc.audio = true)
    (hfresh : ∀ c ∈ db.call_logs, (c.id == orc.newId) = false) :
    initiate_order_confirmation_call orderId userId language voiceId orc db now =
      ⟨.error errAudioGenerationFailed,
       { orders := db.orders,
         call_logs := db.call_logs ++
           [{ newCallRecord orc orderId userId language (resolveVoice voiceId) now with
               status := "failed", outcome := some "audio_generation_failed" }] },
       [.genScript, .genAudio]⟩ := by
  have hne : applyCallUpdate { status := some "failed", outcome := some "audio_generation_failed" }
      now (newCallRecord orc orderId userId language (resolveVoice voiceId) now)
      ≠ newCallRecord orc orderId userId language (resolveVoice voiceId) now := by
    intro h
    have h2 := congrArg CallInDB.status h
    simp [applyCallUpdate, newCallRecord] at h2
  have happ := update_call_appended
    { status := some "failed", outcome := some "audio_generation_failed" } db now
    (newCallRecord orc orderId userId language (resolveVoice voiceId) now) hfresh hne
  unfold initiate_order_confirmation_call
  simp only [hord]
  rw [if_neg hnc, if_neg (not_le.mpr hatt)]
  simp only [haud, if_true]
  rw [happ]
  rfl

/-- Concrete instantiation of c2_audio_failure_frame on the pending
sample order with a failing audio oracle. -/
theorem c2_audio_failure_frame_witness :
    initiate_order_confirmation_call 1 7 "en" none exOracleNoAudio exDb 1000 =
      ⟨.error errAudioGenerationFailed,
       { orders := exDb.orders,
         call_logs := exDb.call_logs ++
           [{ newCallRecord exOracleNoAudio 1 7 "en" (resolveVoice none) 1000 with
               status := "failed", outcome := some "audio_generation_failed" }] },
       [.genScript, .genAudio]⟩ :=
  c2_audio_failure_frame 1 7 "en" none exOracleNoAudio exDb 1000 exOrder
    (by decide) (by decide) (by decide) (by decide) (by decide)

/-- C3 (evaluation at the failing input): on the pending sample order
with successful synthesis and an accepted dispatch, the code increments
call_attempts to exactly 1 and sets last_call_date, and persists the
CallRecord with status "in_progress" and the script as transcript — but
the persisted record has started_at = none and metadata = none: the
started_at and metadata arguments passed at call_service.py:140-145 are
silently dropped because the CallUpdate model declares neither field. -/
theorem c3_dispatch_path_drops_started_at_and_metadata :
    (initiate_order_confirmation_call 1 7 "en" none exOracle exDb 1000).db.orders
      = [(1, { exOrder with call_attempts := 1, last_call_date := some 1000 })]
    ∧ ((initiate_order_confirmation_call 1 7 "en" none exOracle exDb 1000).db.call_logs.map
        fun c => (c.status, c.transcript, c.started_at, c.metadata))
      = [("in_progress",
          some (generate_confirmation_script "Alice" "ORD-1" 10 "USD" exItems "en"),
          none, none)]
    ∧ (initiate_order_confirmation_call 1 7 "en" none exOracle exDb 1000).trace
      = [.genScript, .genAudio, .dispatchCall "+15550100"] := by
  refine ⟨?_, ?_, ?_⟩ <;> rfl

/-- C10: an existing order owned by the requester whose status is
pending, failed or cancelled, with remaining attempt budget, passes the
eligibility check: the run reaches the dispatcher (a call is placed for
the order's phone number), a CallRecord is appended, and the invocation
returns normally instead of raising. -/
theorem c10_nonconfirmed_statuses_callable (orderId userId : Nat) (language : String)
    (voiceId : Option String) (orc : InitOracle) (db : DB) (now : Nat) (ord : OrderInDB)
    (hord : findOrder db orderId userId = some ord)
    (hst : ord.confirmation_status = "pending" ∨ ord.confirmation_status = "failed"
            ∨ ord.confirmation_status = "cancelled")
    (hatt : ord.call_attempts < ord.max_call_attempts)
    (haud : audioFalsy orc.audio = false)
    (hfresh : ∀ c ∈ db.call_logs, (c.id == orc.newId) = false) :
    (∃ v, (initiate_order_confirmation_call orderId userId language voiceId orc db now).result
        = .ok v)
    ∧ (initiate_order_confirmation_call orderId userId language voiceId orc db now).trace
        = [.genScript, .genAudio, .dispatchCall ord.customer.phone]
    ∧ (initiate_order_confirmation_call orderId userId language voiceId orc db now).db.call_logs.length
        = db.call_logs.length + 1 := by
  have hnc : ord.confirmation_status ≠ "confirmed" := by
    rcases hst with h | h | h <;> simp [h]
  have hstat := applyCallUpdate_status_ended_at
    { status := some (if orc.dispatch.success then "in_progress" else "failed"),
      transcript := some (generate_confirmation_script ord.customer.name ord.order_id
        ord.order_details.total ord.order_details.currency ord.order_details.items language) }
    now (newCallRecord orc orderId userId language (resolveVoice voiceId) now)
    (if orc.dispatch.success then "in_progress" else "failed") rfl
  have hne : applyCallUpdate
      { status := some (if orc.dispatch.success then "in_progress" else "failed"),
        transcript := some (generate_confirmation_script ord.customer.name ord.order_id
          ord.order_details.total ord.order_details.currency ord.order_details.items language) }
      now (newCallRecord orc orderId userId language (resolveVoice voiceId) now)
      ≠ newCallRecord orc orderId userId language (resolveVoice voiceId) now := by
    intro h
    have h2 := congrArg CallInDB.status h
    rw [hstat.1] at h2
    have h3 : (newCallRecord orc orderId userId language (resolveVoice voiceId) now).status
        = "initiated" := rfl
    rw [h3] at h2
    cases horc : orc.dispatch.success <;> rw [horc] at h2 <;> simp at h2
  have happ := update_call_appended
    { status := some (if orc.dispatch.success then "in_progress" else "failed"),
      transcript := some (generate_confirmation_script ord.customer.name ord.order_id
        ord.order_details.total ord.order_details.currency ord.order_details.items language) }
    db now (newCallRecord orc orderId userId language (resolveVoice voiceId) now) hfresh hne
  unfold initiate_order_confirmation_call
  simp only [hord]
  rw [if_neg hnc, if_neg (not_le.mpr hatt)]
  simp only [haud, Bool.false_eq_true, if_false]
  rw [happ]
  refine ⟨?_, ?_, ?_⟩
  · exact ⟨_, rfl⟩
  · trivial
  · simp [incrementOrderAttempts]

/-- Concrete instantiation of c10_nonconfirmed_statuses_callable on the
cancelled sample order: the cancelled order is still phoned. -/
theorem c10_nonconfirmed_statuses_callable_witness :
    (∃ v, (initiate_order_confirmation_call 1 7 "en" none exOracle exDbCancelled 1000).result
        = .ok v)
    ∧ (initiate_order_confirmation_call 1 7 "en" none exOracle exDbCancelled 1000).trace
        = [.genScript, .genAudio, .dispatchCall "+15550100"]
    ∧ (initiate_order_confirmation_call 1 7 "en" none exOracle exDbCancelled 1000).db.call_logs.length
        = exDbCancelled.call_logs.length + 1 :=
  c10_nonconfirmed_statuses_callable 1 7 "en" none exOracle exDbCancelled 1000
    exOrderCancelled (by decide) (Or.inr (Or.inr (by decide))) (by decide) (by decide)
    (by decide)

/-- C4: for a delivery event matching an existing CallRecord, the
provider status is mapped by the fixed table (completed→completed,
busy→failed, no-answer→failed, failed→failed, canceled→cancelled,
default failed), the outcome is "completed" exactly for a completed
mapped status with duration > 10, "no_answer" for a completed mapped
status with duration <= 10, "failed" for a failed mapped status, and the
linked order is rewritten to confirmation_status "confirmed" with
confirmed_at set exactly when the derived outcome is "completed", the
orders collection being untouched otherwise. -/
theorem c4_reconcile_mapping_and_confirmation (callId : String) (e : WebhookEvent)
    (db : DB) (now : Nat) (c : CallInDB) (st : String) (dur : Int)
    (hfind : db.call_logs.find? (fun r => r.call_id == callId) = some c)
    (hst : e.callStatus = some st) (hdur : e.callDuration = some dur) :
    (process_call_webhook callId e db now).1 = true
    ∧ ((process_call_webhook callId e db now).2.call_logs.find? (fun r => r.call_id == callId)
        = some (reconcileRecord e now c))
    ∧ ((reconcileRecord e now c).status = "completed" ↔ st = "completed")
    ∧ (st = "busy" → (reconcileRecord e now c).status = "failed")
    ∧ (st = "no-answer" → (reconcileRecord e now c).status = "failed")
    ∧ (st = "failed" → (reconcileRecord e now c).status = "failed")
    ∧ (st = "canceled" → (reconcileRecord e now c).status = "cancelled")
    ∧ (st ≠ "completed" → st ≠ "canceled" → (reconcileRecord e now c).status = "failed")
    ∧ ((reconcileRecord e now c).outcome = some "completed" ↔ (st = "completed" ∧ 10 < dur))
    ∧ (st = "completed" → dur ≤ 10 → (reconcileRecord e now c).outcome = some "no_answer")
    ∧ ((reconcileRecord e now c).status = "failed" →
        (reconcileRecord e now c).outcome = some "failed")
    ∧ ((reconcileRecord e now c).outcome = some "completed" →
        (process_call_webhook callId e db now).2.orders
          = updateFirst (fun p => p.1 == c.order_id)
              (fun p => (p.1, confirmOrder now p.2)) db.orders)
    ∧ ((reconcileRecord e now c).outcome ≠ some "completed" →
        (process_call_webhook callId e db now).2.orders = db.orders)
    ∧ (∀ o : OrderInDB, (confirmOrder now o).confirmation_status = "confirmed"
        ∧ (confirmOrder now o).confirmed_at = some now) := by
  have hproc : process_call_webhook callId e db now
      = (true, applyWebhook callId e now c.order_id db) := by
    unfold process_call_webhook
    simp only [hfind]
  have hgetst : e.callStatus.getD "unknown" = st := by rw [hst]; rfl
  have hgetdur : e.callDuration.getD 0 = dur := by rw [hdur]; rfl
  have hstatus : (reconcileRecord e now c).status = twStatusMap st := by
    rw [reconcileRecord_status, hgetst]
  have houtcome : (reconcileRecord e now c).outcome
      = some (deriveOutcome (twStatusMap st) dur) := by
    rw [reconcileRecord_outcome, hgetst, hgetdur]
  have horders : (process_call_webhook callId e db now).2.orders
      = (if deriveOutcome (twStatusMap st) dur = "completed"
         then updateFirst (fun p => p.1 == c.order_id)
            (fun p => (p.1, confirmOrder now p.2)) db.orders
         else db.orders) := by
    rw [hproc]
    dsimp only
    rw [applyWebhook_orders, hgetst, hgetdur]
  refine ⟨by rw [hproc], ?_, ?_, ?_, ?_, ?_, ?_, ?_, ?_, ?_, ?_, ?_, ?_, fun o => ⟨rfl, rfl⟩⟩
  · rw [hproc]
    dsimp only
    rw [applyWebhook_call_logs,
      find?_updateFirst _ _ _ (fun a => by rw [reconcileRecord_call_id]), hfind]
    rfl
  · rw [hstatus]
    exact twStatusMap_eq_completed_iff st
  · intro h
    rw [hstatus, h]
    rfl
  · intro h
    rw [hstatus, h]
    rfl
  · intro h
    rw [hstatus, h]
    rfl
  · intro h
    rw [hstatus, h]
    rfl
  · intro h1 h2
    rw [hstatus, twStatusMap_default st h1 h2]
  · rw [houtcome]
    simp only [Option.some.injEq]
    rw [deriveOutcome_eq_completed_iff, twStatusMap_eq_completed_iff]
  · intro h hle
    rw [houtcome, h]
    have : twStatusMap "completed" = "completed" := rfl
    rw [this, deriveOutcome_completed_short dur hle]
  · intro h
    rw [hstatus] at h
    rw [houtcome, h, deriveOutcome_of_failed]
  · intro h
    rw [houtcome] at h
    simp only [Option.some.injEq] at h
    rw [horders, if_pos h]
  · intro h
    rw [houtcome] at h
    simp only [ne_eq, Option.some.injEq] at h
    rw [horders, if_neg h]

/-- Concrete instantiation of c4_reconcile_mapping_and_confirmation: a
"completed" event with duration 15 for the dispatched sample call. -/
theorem c4_reconcile_mapping_and_confirmation_witness :
    (process_call_webhook "CA123" exEventCompleted exDbCall 2000).1 = true
    ∧ ((process_call_webhook "CA123" exEventCompleted exDbCall 2000).2.call_logs.find?
          (fun r => r.call_id == "CA123")
        = some (reconcileRecord exEventCompleted 2000 exCall))
    ∧ ((reconcileRecord exEventCompleted 2000 exCall).status = "completed" ↔ "completed" = "completed")
    ∧ ("completed" = "busy" → (reconcileRecord exEventCompleted 2000 exCall).status = "failed")
    ∧ ("completed" = "no-answer" → (reconcileRecord exEventCompleted 2000 exCall).status = "failed")
    ∧ ("completed" = "failed" → (reconcileRecord exEventCompleted 2000 exCall).status = "failed")
    ∧ ("completed" = "canceled" → (reconcileRecord exEventCompleted 2000 exCall).status = "cancelled")
    ∧ ("completed" ≠ "completed" → "completed" ≠ "canceled" →
        (reconcileRecord exEventCompleted 2000 exCall).status = "failed")
    ∧ ((reconcileRecord exEventCompleted 2000 exCall).outcome = some "completed"
        ↔ ("completed" = "completed" ∧ 10 < (15 : Int)))
    ∧ ("completed" = "completed" → (15 : Int) ≤ 10 →
        (reconcileRecord exEventCompleted 2000 exCall).outcome = some "no_answer")
    ∧ ((reconcileRecord exEventCompleted 2000 exCall).status = "failed" →
        (reconcileRecord exEventCompleted 2000 exCall).outcome = some "failed")
    ∧ ((reconcileRecord exEventCompleted 2000 exCall).outcome = some "completed" →
        (process_call_webhook "CA123" exEventCompleted exDbCall 2000).2.orders
          = updateFirst (fun p => p.1 == exCall.order_id)
              (fun p => (p.1, confirmOrder 2000 p.2)) exDbCall.orders)
    ∧ ((reconcileRecord exEventCompleted 2000 exCall).outcome ≠ some "completed" →
        (process_call_webhook "CA123" exEventCompleted exDbCall 2000).2.orders = exDbCall.orders)
    ∧ (∀ o : OrderInDB, (confirmOrder 2000 o).confirmation_status = "confirmed"
        ∧ (confirmOrder 2000 o).confirmed_at = some 2000) :=
  c4_reconcile_mapping_and_confirmation "CA123" exEventCompleted exDbCall 2000 exCall
    "completed" 15 (by decide) (by decide) (by decide)

/-- C5: reconciling the same delivery event twice (same inputs, same
current time) leaves the call record and the orders in the same state as
reconciling it once, and returns the same match flag. -/
theorem c5_reconcile_idempotent (callId : String) (e : WebhookEvent) (db : DB) (now : Nat) :
    process_call_webhook callId e (process_call_webhook callId e db now).2 now
      = process_call_webhook callId e db now := by
  cases hf : db.call_logs.find? (fun c => c.call_id == callId) with
  | none =>
    have h1 : process_call_webhook callId e db now = (false, db) := by
      unfold process_call_webhook
      simp only [hf]
    rw [h1]
    exact h1
  | some c =>
    have h1 : process_call_webhook callId e db now
        = (true, applyWebhook callId e now c.order_id db) := by
      unfold process_call_webhook
      simp only [hf]
    have hfind2 : (applyWebhook callId e now c.order_id db).call_logs.find?
        (fun r => r.call_id == callId) = some (reconcileRecord e now c) := by
      rw [applyWebhook_call_logs,
        find?_updateFirst _ _ _ (fun a => by rw [reconcileRecord_call_id]), hf]
      rfl
    have h2 : process_call_webhook callId e (applyWebhook callId e now c.order_id db) now
        = (true, applyWebhook callId e now (reconcileRecord e now c).order_id
            (applyWebhook callId e now c.order_id db)) := by
      unfold process_call_webhook
      simp only [hfind2]
    rw [h1]
    dsimp only
    rw [h2, reconcileRecord_order_id, applyWebhook_idem]

/-- C6 counterexample: the public order-update operation
(order_service.update_order, exposed as PUT /api/orders/) with no
reconciliation involved turns the pending sample order into a confirmed
one with confirmed_at set — so reconciliation is not the single path by
which confirmation_status becomes "confirmed". -/
theorem c6_counterexample_update_order_confirms :
    ((update_order 1 { confirmation_status := some "confirmed" } exUser exDb 1000).2.orders.map
        fun p => (p.2.confirmation_status, p.2.confirmed_at))
      = [("confirmed", some 1000)]
    ∧ exOrder.confirmation_status = "pending" := by
  exact ⟨rfl, rfl⟩

/-- C6 amended: reconciliation is not the only confirmation path: for
every stored order visible to the requester, the public order-update
operation with a payload whose confirmation_status is "confirmed"
rewrites that order to confirmation_status "confirmed" with confirmed_at
= now, and returns the updated document. -/
theorem c6_update_order_is_second_confirm_path (orderId : Nat) (u : OrderUpdate)
    (user : UserInDB) (db : DB) (now : Nat) (p0 : Nat × OrderInDB)
    (hfind : db.orders.find? (orderQuery user orderId) = some p0)
    (hconf : u.confirmation_status = some "confirmed") :
    ((update_order orderId u user db now).2.orders.find? (orderQuery user orderId)).map
        (fun p => (p.2.confirmation_status, p.2.confirmed_at))
      = some ("confirmed", some now)
    ∧ (update_order orderId u user db now).1 = some (applyOrderUpdate u now p0.2) := by
  have hq : ∀ p : Nat × OrderInDB,
      orderQuery user orderId (p.1, applyOrderUpdate u now p.2)
        = orderQuery user orderId p := by
    intro p
    unfold orderQuery
    rw [applyOrderUpdate_user_id]
  have hfind2 : (updateFirst (orderQuery user orderId)
      (fun p => (p.1, applyOrderUpdate u now p.2)) db.orders).find? (orderQuery user orderId)
      = some (p0.1, applyOrderUpdate u now p0.2) := by
    rw [find?_updateFirst _ _ _ hq, hfind]
    rfl
  have hupd1 : (update_order orderId u user db now).1
      = some (applyOrderUpdate u now p0.2) := by
    unfold update_order
    simp only [hfind]
    rw [hfind2]
    rfl
  have hupd2 : (update_order orderId u user db now).2.orders
      = updateFirst (orderQuery user orderId)
          (fun p => (p.1, applyOrderUpdate u now p.2)) db.orders := by
    unfold update_order
    simp only [hfind]
  constructor
  · rw [hupd2, hfind2]
    have hc := applyOrderUpdate_confirmed u now p0.2 hconf
    simp [hc.1, hc.2]
  · exact hupd1

/-- Concrete instantiation of c6_update_order_is_second_confirm_path on
the pending sample order. -/
theorem c6_update_order_is_second_confirm_path_witness :
    (((update_order 1 { confirmation_status := some "confirmed" } exUser exDb 1000).2.orders.find?
        (orderQuery exUser 1)).map (fun p => (p.2.confirmation_status, p.2.confirmed_at))
      = some ("confirmed", some 1000))
    ∧ (update_order 1 { confirmation_status := some "confirmed" } exUser exDb 1000).1
      = some (applyOrderUpdate { confirmation_status := some "confirmed" } 1000 exOrder) :=
  c6_update_order_is_second_confirm_path 1 { confirmation_status := some "confirmed" }
    exUser exDb 1000 (1, exOrder) (by decide) rfl

/-- C7 counterexample: for a delivery event whose CallSid matches no
stored CallRecord, the webhook endpoint raises HTTP 400 "Failed to
process webhook" — it does not respond success, although the
service-level reconciliation was the benign (false, unchanged) no-op. -/
theorem c7_counterexample_webhook_error_on_unknown :
    twilio_webhook exEventUnknown exDbCall 2000
      = (.httpError 400 "Failed to process webhook", exDbCall)
    ∧ WebhookResponse.httpError 400 "Failed to process webhook" ≠ .success := by
  exact ⟨rfl, by decide⟩

/-- C7 amended: for every delivery event whose call identifier matches
no stored CallRecord, reconciliation returns false and mutates nothing,
but the inbound webhook endpoint responds with HTTP 400 "Failed to
process webhook" rather than success. -/
theorem c7_unknown_event_noop_but_400 (db : DB) (e : WebhookEvent) (sid : String) (now : Nat)
    (hsid : e.callSid = some sid) (hne : sid ≠ "")
    (hfind : db.call_logs.find? (fun c => c.call_id == sid) = none) :
    process_call_webhook sid e db now = (false, db)
    ∧ twilio_webhook e db now = (.httpError 400 "Failed to process webhook", db) := by
  have h1 : process_call_webhook sid e db now = (false, db) := by
    unfold process_call_webhook
    simp only [hfind]
  refine ⟨h1, ?_⟩
  unfold twilio_webhook
  simp only [hsid]
  rw [if_neg hne]
  simp [h1]

/-- Concrete instantiation of c7_unknown_event_noop_but_400 on a
database whose only call record has a different call_id. -/
theorem c7_unknown_event_noop_but_400_witness :
    process_call_webhook "CA999" exEventUnknown exDbCall 2000 = (false, exDbCall)
    ∧ twilio_webhook exEventUnknown exDbCall 2000
      = (.httpError 400 "Failed to process webhook", exDbCall) :=
  c7_unknown_event_noop_but_400 exDbCall exEventUnknown "CA999" 2000 (by decide) (by decide)
    (by decide)

/-- C8 counterexample: with one completed 10-second call and one failed
call with no recorded duration, the code reports average_duration 5 —
the summed duration divided by ALL calls — while the spec's mean over
calls with non-null duration is 10; likewise the code reports
success_rate 50 (a percentage) where the spec's completed/total ratio is
1/2. -/
theorem c8_counterexample_stats_formulas :
    (get_call_stats exUser exDbStats).1.average_duration = 5
    ∧ averageDurationSpec (visibleCalls exUser exDbStats) = 10
    ∧ (get_call_stats exUser exDbStats).1.average_duration
        ≠ averageDurationSpec (visibleCalls exUser exDbStats)
    ∧ (get_call_stats exUser exDbStats).1.success_rate = 50
    ∧ successRateSpec (visibleCalls exUser exDbStats) = 1/2
    ∧ (get_call_stats exUser exDbStats).1.success_rate
        ≠ successRateSpec (visibleCalls exUser exDbStats) := by
  have hv : visibleCalls exUser exDbStats = exStatsCalls := rfl
  have hie : exStatsCalls.isEmpty = false := rfl
  have hfm : (exStatsCalls.filterMap fun c => c.duration) = [10] := rfl
  have hfil : (exStatsCalls.filter fun c => c.status == "completed").length = 1 := rfl
  have hlen : exStatsCalls.length = 2 := rfl
  have havg : (get_call_stats exUser exDbStats).1.average_duration = round2 ((10 : ℚ) / 2) := by
    unfold get_call_stats callStatsOf
    rw [hv]
    simp only [hie, Bool.false_eq_true, if_false, hfm, hfil, hlen]
    norm_num
  have h5 : round2 ((10 : ℚ) / 2) = 5 := by
    unfold round2 pyRoundInt
    norm_num
  have hrate : (get_call_stats exUser exDbStats).1.success_rate
      = round2 ((1 : ℚ) / 2 * 100) := by
    unfold get_call_stats callStatsOf
    rw [hv]
    simp only [hie, Bool.false_eq_true, if_false, hfm, hfil, hlen]
    norm_num
  have h50 : round2 ((1 : ℚ) / 2 * 100) = 50 := by
    unfold round2 pyRoundInt
    norm_num
  have hspecavg : averageDurationSpec (visibleCalls exUser exDbStats) = 10 := by
    rw [hv]
    unfold averageDurationSpec
    simp only [hfm]
    norm_num
  have hspecrate : successRateSpec (visibleCalls exUser exDbStats) = 1/2 := by
    rw [hv]
    unfold successRateSpec
    simp only [hie, Bool.false_eq_true, if_false, hfil, hlen]
    norm_num
  refine ⟨havg.trans h5, hspecavg, ?_, hrate.trans h50, hspecrate, ?_⟩
  · rw [havg.trans h5, hspecavg]
    norm_num
  · rw [hrate.trans h50, hspecrate]
    norm_num

/-- C8 amended: the statistics read has no write side effects, and on a
nonempty visible call set it computes success_rate as completed/total
× 100 (a percentage, rounded to 2 decimals) and average_duration as the
sum of the non-null durations divided by the TOTAL number of calls
(rounded to 2 decimals), not the mean over calls with non-null duration. -/
theorem c8_stats_formulas (user : UserInDB) (db : DB)
    (h : visibleCalls user db ≠ []) :
    (get_call_stats user db).2 = db
    ∧ (get_call_stats user db).1.success_rate
        = round2 ((((visibleCalls user db).filter fun c => c.status == "completed").length : ℚ)
            / ((visibleCalls user db).length : ℚ) * 100)
    ∧ (get_call_stats user db).1.average_duration
        = round2 (((((visibleCalls user db).filterMap fun c => c.duration).sum : ℤ) : ℚ)
            / ((visibleCalls user db).length : ℚ)) := by
  have hpos : 0 < (visibleCalls user db).length := List.length_pos.mpr h
  have hne2 : (visibleCalls user db).isEmpty = false := by
    cases hv : visibleCalls user db with
    | nil => exact absurd hv h
    | cons a l => rfl
  refine ⟨rfl, ?_, ?_⟩ <;>
    (unfold get_call_stats callStatsOf
     simp only [hne2, Bool.false_eq_true, if_false, if_pos hpos])

/-- Concrete instantiation of c8_stats_formulas on the two-call sample
database. -/
theorem c8_stats_formulas_witness :
    (get_call_stats exUser exDbStats).2 = exDbStats
    ∧ (get_call_stats exUser exDbStats).1.success_rate
        = round2 ((((visibleCalls exUser exDbStats).filter fun c => c.status == "completed").length : ℚ)
            / ((visibleCalls exUser exDbStats).length : ℚ) * 100)
    ∧ (get_call_stats exUser exDbStats).1.average_duration
        = round2 (((((visibleCalls exUser exDbStats).filterMap fun c => c.duration).sum : ℤ) : ℚ)
            / ((visibleCalls exUser exDbStats).length : ℚ)) :=
  c8_stats_formulas exUser exDbStats (by decide)

/-- C9 counterexample: updating the freshly initiated sample call to the
terminal status "failed" leaves ended_at unset: the stored record has
status "failed" and ended_at = none, so ended_at is not set on every
transition to a terminal status. -/
theorem c9_counterexample_failed_without_ended_at :
    ((update_call 5 { status := some "failed" } exDbInitiated 99).2.call_logs.map
        fun c => (c.status, c.ended_at))
      = [("failed", none)] := by
  rfl

/-- C9 amended: in both update paths ended_at is assigned exactly when
the incoming status is "completed": the orchestrator's update sets it to
now iff the CallUpdate's status is "completed" (leaving it unchanged on
"failed"/"cancelled" and all other values), and reconciliation sets it
to now iff the mapped provider status is "completed". -/
theorem c9_ended_at_exactly_on_completed (u : CallUpdate) (now : Nat) (c : CallInDB)
    (s : String) (e : WebhookEvent) (hs : u.status = some s) :
    ((applyCallUpdate u now c).ended_at = if s = "completed" then some now else c.ended_at)
    ∧ ((reconcileRecord e now c).ended_at
        = if twStatusMap (e.callStatus.getD "unknown") = "completed" then some now
          else c.ended_at) :=
  ⟨(applyCallUpdate_status_ended_at u now c s hs).2, reconcileRecord_ended_at e now c⟩

/-- Concrete instantiation of c9_ended_at_exactly_on_completed on the
initiated sample call with a "completed" update and event. -/
theorem c9_ended_at_exactly_on_completed_witness :
    ((applyCallUpdate { status := some "completed" } 99 exCallInitiated).ended_at
        = if "completed" = "completed" then some 99 else exCallInitiated.ended_at)
    ∧ ((reconcileRecord exEventCompleted 99 exCallInitiated).ended_at
        = if twStatusMap (exEventCompleted.callStatus.getD "unknown") = "completed" then some 99
          else exCallInitiated.ended_at) :=
  c9_ended_at_exactly_on_completed { status := some "completed" } 99 exCallInitiated
    "completed" exEventCompleted rfl
